import Mathlib

/-!
Shallow embedding of the ConsoleSensei-Cloud backend
(`src/backend/aws_resource_scanner.py`, `src/backend/resource_manager.py`,
`src/backend/api.py`) together with theorems settling the frozen claims
about the scan orchestration engine and the resource action subsystem.

Modelling conventions:
* Provider calls (boto3) are oracles: each embedded function receives the
  outcome of the provider calls it makes as an explicit argument, either a
  value or an exception.
* Python exceptions are the `PyExc` type; the source catches only
  `botocore.exceptions.ClientError`, so the embedding distinguishes
  `ClientError` from every other exception class (`KeyError`, `TypeError`,
  `BotoCoreError`, ...).
* Python dict access `d[k]` on a possibly-missing key is `pyGet`, which
  raises `KeyError`; `d.get(k, default)` never raises.
* Python floats are modelled as rationals; `round(x, 2)` is round-half-even
  on the exact rational, which agrees with the float behaviour on all the
  concrete inputs used in theorems below.
-/

set_option maxHeartbeats 1000000
set_option maxRecDepth 4096

namespace ConsoleSensei

/-- Python exception classes relevant to the embedded code.  The source code
only ever catches `ClientError`; every other class propagates through those
handlers. -/
inductive PyExc where
  | clientError (msg : String)
  | keyError (key : String)
  | indexError (msg : String)
  | typeError (msg : String)
  | botoCoreError (msg : String)
  deriving DecidableEq, Repr

/-- Whether an exception is caught by `except ClientError`. -/
def PyExc.isClientError : PyExc → Bool
  | .clientError _ => true
  | _ => false

/-- Embedding of Python `str(e)` for the exceptions above. -/
def PyExc.str : PyExc → String
  | .clientError m => m
  | .keyError k => k
  | .indexError m => m
  | .typeError m => m
  | .botoCoreError m => m

/-- Python `d[key]` on a field that may be absent: raises `KeyError` when the
key is missing. -/
def pyGet {α : Type} (key : String) : Option α → Except PyExc α
  | some v => .ok v
  | none => .error (.keyError key)

/-- Python `str(x)` for an optional string (`None` prints as `"None"`). -/
def pyStr : Option String → String
  | some s => s
  | none => "None"

/-- Python `v or default` for strings: `None` and the empty string are falsy. -/
def pyOrStr (v : Option String) (d : String) : String :=
  match v with
  | none => d
  | some s => if s = "" then d else s

/-- Insert-or-replace for a Python dict modelled as an ordered association
list: replacing keeps the original position, a fresh key goes to the end. -/
def dictInsert (m : List (String × String)) (k v : String) : List (String × String) :=
  match m with
  | [] => [(k, v)]
  | (k₁, v₁) :: rest => if k₁ = k then (k₁, v) :: rest else (k₁, v₁) :: dictInsert rest k v

/-- Python dict comprehension `{p[0]: p[1] for p in ps}` (later keys win). -/
def dictOfPairs (ps : List (String × String)) : List (String × String) :=
  ps.foldl (fun m kv => dictInsert m kv.1 kv.2) []

/-- First-match lookup in an ordered association list (keys built through
`dictInsert` are unique, so the first match is the only one). -/
def lookupS (m : List (String × String)) (k : String) : Option String :=
  match m with
  | [] => none
  | (k₁, v₁) :: rest => if k₁ = k then some v₁ else lookupS rest k

/-- Python `d.get(k, default)` on a string dict. -/
def dictGetD (m : List (String × String)) (k d : String) : String :=
  match lookupS m k with
  | some v => v
  | none => d

/-! ## Data model (`aws_resource_scanner.py`, `ResourceMetadata` / `DeleteResult`) -/

/-- Embedding of the `ResourceMetadata` dataclass: the uniform record every
scanner produces.  `estimated_cost_monthly` defaults to `None` exactly as in
the source; `additional_metadata` values are kind-specific `Any` values,
embedded as strings (no claim inspects them). -/
structure ResourceMetadata where
  resource_id : String
  resource_name : Option String
  resource_type : String
  region : String
  state : String
  creation_date : Option String
  tags : List (String × String)
  estimated_cost_monthly : Option ℚ := none
  additional_metadata : List (String × String) := []
  deriving DecidableEq, Repr

/-- Embedding of the `DeleteResult` dataclass (the `ActionOutcome` of the
spec).  `resource_id` and `resource_type` are optional because the bulk
endpoint passes `dict.get` results straight through. -/
structure DeleteResult where
  success : Bool
  resource_id : Option String
  resource_type : Option String
  action : String
  message : String
  verification_status : String
  error : Option String := none
  deriving DecidableEq, Repr

/-! ## Summary building (`AWSResourceScanner._build_summary`) -/

/-- One `d[k] = d.get(k, 0) + 1` update on a counting dict. -/
def incr (m : List (String × Nat)) (k : String) : List (String × Nat) :=
  match m with
  | [] => [(k, 1)]
  | (k₁, v₁) :: rest => if k₁ = k then (k₁, v₁ + 1) :: rest else (k₁, v₁) :: incr rest k

/-- Sum of the values of a counting dict. -/
def valsSum (m : List (String × Nat)) : Nat :=
  (m.map Prod.snd).sum

/-- The `summary` dict produced by `_build_summary`. -/
structure Summary where
  total_resources : Nat
  by_type : List (String × Nat)
  by_region : List (String × Nat)
  by_state : List (String × Nat)
  deriving DecidableEq, Repr

/-- One loop iteration of `_build_summary`: bump the three frequency dicts
for a single resource. -/
def summaryStep (acc : List (String × Nat) × List (String × Nat) × List (String × Nat))
    (r : ResourceMetadata) :
    List (String × Nat) × List (String × Nat) × List (String × Nat) :=
  (incr acc.1 r.resource_type, incr acc.2.1 r.region, incr acc.2.2 r.state)

/-- Embedding of `AWSResourceScanner._build_summary`: one pass over the
resources updating three frequency dicts, plus the total count. -/
def build_summary (resources : List ResourceMetadata) : Summary :=
  let acc := resources.foldl summaryStep ([], [], [])
  { total_resources := resources.length
    by_type := acc.1
    by_region := acc.2.1
    by_state := acc.2.2 }

/-! ## Cost summary (`AWSResourceScanner._build_cost_summary`) -/

/-- Round-half-to-even of a rational, the rounding mode of Python `round`.
On all concrete inputs used below it agrees with float `round`. -/
def roundHalfEven (q : ℚ) : ℤ :=
  let n := Int.floor q
  let r := q - n
  if r < 1/2 then n
  else if 1/2 < r then n + 1
  else if n % 2 = 0 then n else n + 1

/-- Embedding of Python `round(q, 2)`. -/
def round2 (q : ℚ) : ℚ :=
  (roundHalfEven (100 * q) : ℚ) / 100

/-- Python `r.estimated_cost_monthly or 0` (both `None` and `0.0` give `0`). -/
def costOrZero (x : Option ℚ) : ℚ :=
  match x with
  | none => 0
  | some v => v

/-- One `by_type[k] += c` update (with the `if k not in by_type` zero
initialisation) on the per-type cost dict. -/
def addCost (m : List (String × ℚ)) (k : String) (c : ℚ) : List (String × ℚ) :=
  match m with
  | [] => [(k, 0 + c)]
  | (k₁, v₁) :: rest => if k₁ = k then (k₁, v₁ + c) :: rest else (k₁, v₁) :: addCost rest k c

/-- The `cost_summary` dict produced by `_build_cost_summary`. -/
structure CostSummary where
  estimated_monthly_total : ℚ
  by_resource_type : List (String × ℚ)
  deriving DecidableEq, Repr

/-- The per-type cost dict before rounding, as built by the loop of
`_build_cost_summary`. -/
def rawByType (resources : List ResourceMetadata) : List (String × ℚ) :=
  resources.foldl (fun m r => addCost m r.resource_type (costOrZero r.estimated_cost_monthly)) []

/-- Embedding of `AWSResourceScanner._build_cost_summary`. -/
def build_cost_summary (resources : List ResourceMetadata) : CostSummary :=
  let total := (resources.map (fun r => costOrZero r.estimated_cost_monthly)).sum
  { estimated_monthly_total := round2 total
    by_resource_type := (rawByType resources).map (fun p => (p.1, round2 p.2)) }

/-- Lookup in a rational-valued dict. -/
def lookupQ (m : List (String × ℚ)) (k : String) : Option ℚ :=
  match m with
  | [] => none
  | (k₁, v₁) :: rest => if k₁ = k then some v₁ else lookupQ rest k

/-- The exact (unrounded) total cost of a resource list. -/
def totalCost (resources : List ResourceMetadata) : ℚ :=
  (resources.map (fun r => costOrZero r.estimated_cost_monthly)).sum

/-- The exact (unrounded) cost of the resources of one type. -/
def typeCost (k : String) (resources : List ResourceMetadata) : ℚ :=
  ((resources.filter (fun r => r.resource_type = k)).map
    (fun r => costOrZero r.estimated_cost_monthly)).sum

/-- Sum of the values of a rational-valued dict. -/
def valsSumQ (m : List (String × ℚ)) : ℚ :=
  (m.map Prod.snd).sum

/-! ## Session manager (`AWSSessionManager`) -/

/-- Kernel-friendly lexicographic comparison of char lists, the order used by
Python `sorted` on region names. -/
def charListLe : List Char → List Char → Bool
  | [], _ => true
  | _ :: _, [] => false
  | a :: as, b :: bs => if a < b then true else if b < a then false else charListLe as bs

/-- Insert a string into an ascending list, keeping it ascending. -/
def insertAsc (s : String) : List String → List String
  | [] => [s]
  | x :: xs => if charListLe s.toList x.toList then s :: x :: xs else x :: insertAsc s xs

/-- Embedding of Python `sorted` on a list of strings. -/
def sortStrings (l : List String) : List String :=
  l.foldr insertAsc []

/-- The hardcoded fallback list of common regions in
`AWSSessionManager.get_regions`. -/
def fallbackRegions : List String :=
  ["us-east-1", "us-east-2", "us-west-1", "us-west-2",
   "eu-west-1", "eu-central-1", "ap-southeast-1", "ap-northeast-1"]

/-- One element of `response['Regions']`; `r['RegionName']` may be absent in a
malformed listing. -/
structure RawRegion where
  regionName : Option String
  deriving DecidableEq, Repr

/-- The list comprehension `[r['RegionName'] for r in response['Regions']]`. -/
def collectRegionNames : List RawRegion → Except PyExc (List String)
  | [] => .ok []
  | r :: rest =>
    match r.regionName with
    | none => .error (.keyError "RegionName")
    | some n =>
      match collectRegionNames rest with
      | .error e => .error e
      | .ok ns => .ok (n :: ns)

/-- Embedding of `AWSSessionManager.get_regions`.  The argument is the
outcome of `ec2.describe_regions(AllRegions=False)`.  The `try` block covers
the call and the comprehension; only `ClientError` is caught and mapped to
the hardcoded fallback list. -/
def get_regions (describeRegions : Except PyExc (List RawRegion)) : Except PyExc (List String) :=
  match describeRegions with
  | .error e => if e.isClientError then .ok fallbackRegions else .error e
  | .ok rs =>
    match collectRegionNames rs with
    | .ok names => .ok (sortStrings names)
    | .error e => if e.isClientError then .ok fallbackRegions else .error e

/-- In-memory state of an `AWSSessionManager`: the credential fields, whether
`self._session` holds a session object, and the keys of the client cache
(handles themselves are opaque). -/
structure SessionState where
  region : String
  access_key : Option String
  secret_key : Option String
  session_active : Bool
  clients : List String
  deriving DecidableEq, Repr

/-- Embedding of `AWSSessionManager.cleanup`: clears the client cache and
rebinds `_session`, `_access_key` and `_secret_key` to `None`. -/
def cleanup (st : SessionState) : SessionState :=
  { st with clients := [], session_active := false, access_key := none, secret_key := none }

/-! ## Scanners (`EC2Scanner`, `S3Scanner`): outcome type and scan loop -/

/-- What a scanner method does when called: return a list of records, or let
an exception propagate to the caller. -/
inductive ScanOutcome where
  | ok (records : List ResourceMetadata)
  | raised (e : PyExc)
  deriving DecidableEq, Repr

/-- A scanner raised a `ClientError` outward. -/
def ScanOutcome.raisesClientError : ScanOutcome → Bool
  | .raised e => e.isClientError
  | .ok _ => false

/-- A scanner raised anything outward. -/
def ScanOutcome.didRaise : ScanOutcome → Bool
  | .raised _ => true
  | .ok _ => false

/-- The accumulation loop shared by all scanner methods: build a record per
listing item, appending to `resources`; the first exception stops the loop
and is reported together with the records accumulated so far. -/
def scanLoop {α : Type} (build : α → Except PyExc ResourceMetadata) :
    List α → List ResourceMetadata → List ResourceMetadata × Option PyExc
  | [], acc => (acc, none)
  | x :: rest, acc =>
    match build x with
    | .ok r => scanLoop build rest (acc ++ [r])
    | .error e => (acc, some e)

/-- The `except ClientError` epilogue of every scanner method: a `ClientError`
is swallowed (the partial list is returned), anything else propagates. -/
def scannerReturn (p : List ResourceMetadata × Option PyExc) : ScanOutcome :=
  match p.2 with
  | none => .ok p.1
  | some e => if e.isClientError then .ok p.1 else .raised e

/-! ### `EC2Scanner.scan_instances` -/

/-- One element of a reservation's `Instances` list, with the fields the
scanner reads.  Bracket-accessed fields are `Option` (absent means the
access raises `KeyError`); `.get`-accessed fields never raise. -/
structure RawInstance where
  instanceId : Option String
  tags : List (String × String)
  stateName : Option String
  launchTimeIso : Option String
  instanceType : Option String
  vpcId : Option String
  subnetId : Option String
  publicIp : Option String
  privateIp : Option String
  deriving DecidableEq, Repr

/-- One element of `response['Reservations']`. -/
structure RawReservation where
  instances : List RawInstance
  deriving DecidableEq, Repr

/-- The body of the inner loop of `EC2Scanner.scan_instances`: build one
`ResourceMetadata` from one instance listing. -/
def mkInstanceRecord (region : String) (inst : RawInstance) : Except PyExc ResourceMetadata :=
  let tags := dictOfPairs inst.tags
  match inst.instanceId with
  | none => .error (.keyError "InstanceId")
  | some iid =>
    match inst.stateName with
    | none => .error (.keyError "State")
    | some st =>
      match inst.launchTimeIso with
      | none => .error (.keyError "LaunchTime")
      | some lt =>
        .ok { resource_id := iid
              resource_name := some (dictGetD tags "Name" "Unnamed")
              resource_type := "EC2_Instance"
              region := region
              state := st
              creation_date := some lt
              tags := tags
              estimated_cost_monthly := none
              additional_metadata :=
                [("instance_type", pyStr inst.instanceType),
                 ("vpc_id", pyStr inst.vpcId),
                 ("subnet_id", pyStr inst.subnetId),
                 ("public_ip", pyStr inst.publicIp),
                 ("private_ip", pyStr inst.privateIp)] }

/-- Embedding of `EC2Scanner.scan_instances`.  The argument is the outcome of
`ec2.describe_instances()`; the whole body is wrapped in
`try ... except ClientError`. -/
def scan_instances (region : String)
    (describeInstances : Except PyExc (List RawReservation)) : ScanOutcome :=
  match describeInstances with
  | .error e => if e.isClientError then .ok [] else .raised e
  | .ok reservations =>
    scannerReturn
      (scanLoop (mkInstanceRecord region) ((reservations.map (fun r => r.instances)).flatten) [])

/-! ### `EC2Scanner.scan_volumes` -/

/-- One element of `response['Volumes']`. -/
structure RawVolume where
  volumeId : Option String
  tags : List (String × String)
  state : Option String
  createTimeIso : Option String
  size : Option Int
  volumeType : Option String
  iops : Option Int
  attachments : List (Option String)
  deriving DecidableEq, Repr

/-- The comprehension `[a['InstanceId'] for a in volume.get('Attachments', [])]`. -/
def collectAttachmentIds : List (Option String) → Except PyExc (List String)
  | [] => .ok []
  | a :: rest =>
    match a with
    | none => .error (.keyError "InstanceId")
    | some iid =>
      match collectAttachmentIds rest with
      | .error e => .error e
      | .ok ids => .ok (iid :: ids)

/-- The body of the loop of `EC2Scanner.scan_volumes`. -/
def mkVolumeRecord (region : String) (v : RawVolume) : Except PyExc ResourceMetadata :=
  let tags := dictOfPairs v.tags
  match v.volumeId with
  | none => .error (.keyError "VolumeId")
  | some vid =>
    match v.state with
    | none => .error (.keyError "State")
    | some st =>
      match v.createTimeIso with
      | none => .error (.keyError "CreateTime")
      | some ct =>
        match v.size with
        | none => .error (.keyError "Size")
        | some sz =>
          match v.volumeType with
          | none => .error (.keyError "VolumeType")
          | some vt =>
            match collectAttachmentIds v.attachments with
            | .error e => .error e
            | .ok attached =>
              .ok { resource_id := vid
                    resource_name := some (dictGetD tags "Name" "Unnamed")
                    resource_type := "EBS_Volume"
                    region := region
                    state := st
                    creation_date := some ct
                    tags := tags
                    estimated_cost_monthly := none
                    additional_metadata :=
                      [("size_gb", toString sz),
                       ("volume_type", vt),
                       ("iops", match v.iops with | some n => toString n | none => "None"),
                       ("attached_to", String.intercalate "," attached)] }

/-- Embedding of `EC2Scanner.scan_volumes`. -/
def scan_volumes (region : String)
    (describeVolumes : Except PyExc (List RawVolume)) : ScanOutcome :=
  match describeVolumes with
  | .error e => if e.isClientError then .ok [] else .raised e
  | .ok volumes => scannerReturn (scanLoop (mkVolumeRecord region) volumes [])

/-! ### `EC2Scanner.scan_elastic_ips` -/

/-- One element of `response['Addresses']`. -/
structure RawAddress where
  allocationId : Option String
  tags : List (String × String)
  publicIp : Option String
  associationId : Option String
  instanceId : Option String
  networkInterfaceId : Option String
  publicIpOwnerId : Option String
  deriving DecidableEq, Repr

/-- The body of the loop of `EC2Scanner.scan_elastic_ips`.  Note that the
default argument `address['PublicIp']` of `tags.get` is evaluated whether or
not the `Name` tag exists, and the state is derived from the presence of
`AssociationId`. -/
def mkElasticIpRecord (region : String) (a : RawAddress) : Except PyExc ResourceMetadata :=
  let tags := dictOfPairs a.tags
  match a.allocationId with
  | none => .error (.keyError "AllocationId")
  | some aid =>
    match a.publicIp with
    | none => .error (.keyError "PublicIp")
    | some pip =>
      match a.publicIpOwnerId with
      | none => .error (.keyError "PublicIpOwnerId")
      | some owner =>
        .ok { resource_id := aid
              resource_name := some (dictGetD tags "Name" pip)
              resource_type := "Elastic_IP"
              region := region
              state := if a.associationId.isSome then "associated" else "unassociated"
              creation_date := some owner
              tags := tags
              estimated_cost_monthly := none
              additional_metadata :=
                [("public_ip", pip),
                 ("associated_instance", pyStr a.instanceId),
                 ("associated_eni", pyStr a.networkInterfaceId)] }

/-- Embedding of `EC2Scanner.scan_elastic_ips`. -/
def scan_elastic_ips (region : String)
    (describeAddresses : Except PyExc (List RawAddress)) : ScanOutcome :=
  match describeAddresses with
  | .error e => if e.isClientError then .ok [] else .raised e
  | .ok addresses => scannerReturn (scanLoop (mkElasticIpRecord region) addresses [])

/-! ### `S3Scanner.scan_buckets` -/

/-- One element of `response['Buckets']`. -/
structure RawBucket where
  name : Option String
  creationDateIso : Option String
  deriving DecidableEq, Repr

/-- Oracle for the per-bucket sub-calls of `S3Scanner.scan_buckets`, keyed by
bucket name: `get_bucket_location` (the `LocationConstraint` value, `None`
for us-east-1), `get_bucket_tagging` (the `TagSet` pairs) and the CloudWatch
`BucketSizeBytes` datapoint averages. -/
structure BucketEnv where
  getBucketLocation : String → Except PyExc (Option String)
  getBucketTagging : String → Except PyExc (List (String × String))
  getMetricDatapoints : String → Except PyExc (List ℚ)

/-- The body of the loop of `S3Scanner.scan_buckets`: each of the three
sub-calls sits in its own `try ... except ClientError` with a fallback value
(`'unknown'`, `{}`, `0`); any non-`ClientError` exception propagates. -/
def mkBucketRecord (env : BucketEnv) (b : RawBucket) : Except PyExc ResourceMetadata :=
  match b.name with
  | none => .error (.keyError "Name")
  | some name =>
    match (match env.getBucketLocation name with
           | .ok lc => .ok (pyOrStr lc "us-east-1")
           | .error e => if e.isClientError then .ok "unknown" else .error e :
           Except PyExc String) with
    | .error e => .error e
    | .ok bucket_region =>
      match (match env.getBucketTagging name with
             | .ok ts => .ok ts
             | .error e => if e.isClientError then .ok [] else .error e :
             Except PyExc (List (String × String))) with
      | .error e => .error e
      | .ok tagPairs =>
        match (match env.getMetricDatapoints name with
               | .ok dps => .ok (match dps with | [] => (0 : ℚ) | d :: _ => d)
               | .error e => if e.isClientError then .ok 0 else .error e :
               Except PyExc ℚ) with
        | .error e => .error e
        | .ok size_bytes =>
          match b.creationDateIso with
          | none => .error (.keyError "CreationDate")
          | some cd =>
            .ok { resource_id := name
                  resource_name := some name
                  resource_type := "S3_Bucket"
                  region := bucket_region
                  state := "active"
                  creation_date := some cd
                  tags := dictOfPairs tagPairs
                  estimated_cost_monthly := none
                  additional_metadata :=
                    [("size_bytes", toString size_bytes),
                     ("size_gb", toString (round2 (size_bytes / 1073741824)))] }

/-- Embedding of `S3Scanner.scan_buckets`.  The first argument is the outcome
of `s3.list_buckets()`; the outer `try` catches only `ClientError`. -/
def scan_buckets (listBuckets : Except PyExc (List RawBucket)) (env : BucketEnv) : ScanOutcome :=
  match listBuckets with
  | .error e => if e.isClientError then .ok [] else .raised e
  | .ok buckets => scannerReturn (scanLoop (mkBucketRecord env) buckets [])

/-! ### `RDSScanner.scan_instances` -/

/-- One element of `response['DBInstances']`, together with the outcome of
`rds.list_tags_for_resource(ResourceName=arn)` for it.  That tags call is not
wrapped in an inner `try`, so any exception from it reaches the scanner's
outer handler. -/
structure RawDBInstance where
  dbInstanceArn : Option String
  tagsCall : Except PyExc (List (String × String))
  dbInstanceIdentifier : Option String
  dbInstanceStatus : Option String
  instanceCreateTimeIso : Option String
  engine : Option String
  dbInstanceClass : Option String
  allocatedStorage : Option Int
  multiAz : Option Bool

/-- The body of the loop of `RDSScanner.scan_instances`. -/
def mkRdsRecord (region : String) (d : RawDBInstance) : Except PyExc ResourceMetadata :=
  match d.dbInstanceArn with
  | none => .error (.keyError "DBInstanceArn")
  | some _ =>
    match d.tagsCall with
    | .error e => .error e
    | .ok tagPairs =>
      match d.dbInstanceIdentifier with
      | none => .error (.keyError "DBInstanceIdentifier")
      | some did =>
        match d.dbInstanceStatus with
        | none => .error (.keyError "DBInstanceStatus")
        | some st =>
          match d.instanceCreateTimeIso with
          | none => .error (.keyError "InstanceCreateTime")
          | some ct =>
            .ok { resource_id := did
                  resource_name := some did
                  resource_type := "RDS_Instance"
                  region := region
                  state := st
                  creation_date := some ct
                  tags := dictOfPairs tagPairs
                  estimated_cost_monthly := none
                  additional_metadata :=
                    [("engine", pyStr d.engine),
                     ("instance_class", pyStr d.dbInstanceClass),
                     ("allocated_storage_gb",
                       match d.allocatedStorage with | some n => toString n | none => "None"),
                     ("multi_az",
                       match d.multiAz with
                       | some true => "True" | some false => "False" | none => "None")] }

/-! ### `LambdaScanner.scan_functions` -/

/-- One function listing entry, with the outcome of
`lambda_client.list_tags(Resource=arn)` (that call sits in an inner
`try ... except ClientError` with fallback `{}`). -/
structure RawFunction where
  functionArn : Option String
  tagsCall : Except PyExc (List (String × String))
  functionName : Option String
  lastModified : Option String
  runtime : Option String
  handler : Option String
  memorySize : Option Int
  timeout : Option Int
  codeSize : Option Int

/-- The body of the loop of `LambdaScanner.scan_functions`. -/
def mkLambdaRecord (region : String) (f : RawFunction) : Except PyExc ResourceMetadata :=
  match f.functionArn with
  | none => .error (.keyError "FunctionArn")
  | some arn =>
    match (match f.tagsCall with
           | .ok ts => .ok ts
           | .error e => if e.isClientError then .ok [] else .error e :
           Except PyExc (List (String × String))) with
    | .error e => .error e
    | .ok tagPairs =>
      match f.functionName with
      | none => .error (.keyError "FunctionName")
      | some fname =>
        match f.lastModified with
        | none => .error (.keyError "LastModified")
        | some lm =>
          .ok { resource_id := arn
                resource_name := some fname
                resource_type := "Lambda_Function"
                region := region
                state := "active"
                creation_date := some lm
                tags := dictOfPairs tagPairs
                estimated_cost_monthly := none
                additional_metadata :=
                  [("runtime", pyStr f.runtime),
                   ("handler", pyStr f.handler),
                   ("memory_mb", match f.memorySize with | some n => toString n | none => "None"),
                   ("timeout_sec", match f.timeout with | some n => toString n | none => "None"),
                   ("code_size_bytes",
                     match f.codeSize with | some n => toString n | none => "None")] }

/-! ### `ELBScanner.scan_load_balancers` -/

/-- One load balancer listing entry, with the outcome of
`elbv2.describe_tags(ResourceArns=[arn])` (inner `try`, fallback `{}`); the
value is the `Tags` pair list of each `TagDescription`, and the loop
reassigns `tags` per description so only the last one survives. -/
structure RawLoadBalancer where
  loadBalancerArn : Option String
  tagsCall : Except PyExc (List (List (String × String)))
  loadBalancerName : Option String
  stateCode : Option String
  createdTimeIso : Option String
  lbType : Option String
  scheme : Option String
  dnsName : Option String
  vpcId : Option String

/-- The body of the loop of `ELBScanner.scan_load_balancers`. -/
def mkLoadBalancerRecord (region : String) (lb : RawLoadBalancer) :
    Except PyExc ResourceMetadata :=
  match lb.loadBalancerArn with
  | none => .error (.keyError "LoadBalancerArn")
  | some arn =>
    match (match lb.tagsCall with
           | .ok descs => .ok ((descs.getLast?).getD [])
           | .error e => if e.isClientError then .ok [] else .error e :
           Except PyExc (List (String × String))) with
    | .error e => .error e
    | .ok tagPairs =>
      match lb.loadBalancerName with
      | none => .error (.keyError "LoadBalancerName")
      | some lbName =>
        match lb.stateCode with
        | none => .error (.keyError "State")
        | some st =>
          match lb.createdTimeIso with
          | none => .error (.keyError "CreatedTime")
          | some ct =>
            .ok { resource_id := arn
                  resource_name := some lbName
                  resource_type := "Load_Balancer"
                  region := region
                  state := st
                  creation_date := some ct
                  tags := dictOfPairs tagPairs
                  estimated_cost_monthly := none
                  additional_metadata :=
                    [("type", pyStr lb.lbType),
                     ("scheme", pyStr lb.scheme),
                     ("dns_name", pyStr lb.dnsName),
                     ("vpc_id", pyStr lb.vpcId)] }

/-! ### `CloudWatchLogsScanner.scan_log_groups` -/

/-- One log group listing entry.  `creationTimeIso` stands for
`datetime.fromtimestamp(log_group['creationTime'] / 1000).isoformat()`. -/
structure RawLogGroup where
  logGroupName : Option String
  creationTimeIso : Option String
  retentionInDays : Option Int
  storedBytes : Option Int
  tags : List (String × String)
  deriving DecidableEq, Repr

/-- The body of the loop of `CloudWatchLogsScanner.scan_log_groups`. -/
def mkLogGroupRecord (region : String) (g : RawLogGroup) : Except PyExc ResourceMetadata :=
  match g.logGroupName with
  | none => .error (.keyError "logGroupName")
  | some name =>
    match g.creationTimeIso with
    | none => .error (.keyError "creationTime")
    | some ct =>
      .ok { resource_id := name
            resource_name := some name
            resource_type := "CloudWatch_LogGroup"
            region := region
            state := "active"
            creation_date := some ct
            tags := g.tags
            estimated_cost_monthly := none
            additional_metadata :=
              [("stored_bytes", match g.storedBytes with | some n => toString n | none => "0"),
               ("retention_days",
                 match g.retentionInDays with
                 | some n => toString n
                 | none => "Never expire")] }

/-! ### `NATGatewayScanner.scan_nat_gateways` -/

/-- One entry of a NAT gateway's `NatGatewayAddresses` list. -/
structure RawNatAddress where
  allocationId : Option String
  publicIp : Option String
  deriving DecidableEq, Repr

/-- One element of `response['NatGateways']`.  `addresses = none` means the
`NatGatewayAddresses` key is absent, in which case the source's
`nat.get('NatGatewayAddresses', [{}])` supplies the one-element default. -/
structure RawNatGateway where
  natGatewayId : Option String
  tags : List (String × String)
  state : Option String
  createTimeIso : Option String
  subnetId : Option String
  addresses : Option (List RawNatAddress)
  deriving DecidableEq, Repr

/-- The body of the loop of `NATGatewayScanner.scan_nat_gateways`.  Indexing
`[0]` into an explicitly empty `NatGatewayAddresses` list raises
`IndexError`. -/
def mkNatGatewayRecord (region : String) (nat : RawNatGateway) :
    Except PyExc ResourceMetadata :=
  let tags := dictOfPairs nat.tags
  match nat.natGatewayId with
  | none => .error (.keyError "NatGatewayId")
  | some nid =>
    match nat.state with
    | none => .error (.keyError "State")
    | some st =>
      match nat.createTimeIso with
      | none => .error (.keyError "CreateTime")
      | some ct =>
        match nat.addresses.getD [{ allocationId := none, publicIp := none }] with
        | [] => .error (.indexError "list index out of range")
        | addr :: _ =>
          .ok { resource_id := nid
                resource_name := some (dictGetD tags "Name" nid)
                resource_type := "NAT_Gateway"
                region := region
                state := st
                creation_date := some ct
                tags := tags
                estimated_cost_monthly := none
                additional_metadata :=
                  [("subnet_id", pyStr nat.subnetId),
                   ("allocation_id", pyStr addr.allocationId),
                   ("public_ip", pyStr addr.publicIp)] }

/-- Embedding of `NATGatewayScanner.scan_nat_gateways`. -/
def scan_nat_gateways (region : String)
    (describeNatGateways : Except PyExc (List RawNatGateway)) : ScanOutcome :=
  match describeNatGateways with
  | .error e => if e.isClientError then .ok [] else .raised e
  | .ok nats => scannerReturn (scanLoop (mkNatGatewayRecord region) nats [])

/-! ### `IAMScanner.scan_users` / `IAMScanner.scan_roles` -/

/-- One IAM user listing entry, with the outcome of
`iam.list_user_tags(UserName=name)` (inner `try`, fallback `{}`). -/
structure RawIamUser where
  userName : Option String
  tagsCall : Except PyExc (List (String × String))
  userId : Option String
  createDateIso : Option String
  arn : Option String

/-- The body of the loop of `IAMScanner.scan_users`. -/
def mkIamUserRecord (u : RawIamUser) : Except PyExc ResourceMetadata :=
  match u.userName with
  | none => .error (.keyError "UserName")
  | some uname =>
    match (match u.tagsCall with
           | .ok ts => .ok ts
           | .error e => if e.isClientError then .ok [] else .error e :
           Except PyExc (List (String × String))) with
    | .error e => .error e
    | .ok tagPairs =>
      match u.userId with
      | none => .error (.keyError "UserId")
      | some uid =>
        match u.createDateIso with
        | none => .error (.keyError "CreateDate")
        | some cd =>
          match u.arn with
          | none => .error (.keyError "Arn")
          | some arn =>
            .ok { resource_id := uid
                  resource_name := some uname
                  resource_type := "IAM_User"
                  region := "global"
                  state := "active"
                  creation_date := some cd
                  tags := dictOfPairs tagPairs
                  estimated_cost_monthly := none
                  additional_metadata := [("arn", arn)] }

/-- One IAM role listing entry, with the outcome of
`iam.list_role_tags(RoleName=name)` (inner `try`, fallback `{}`). -/
structure RawIamRole where
  roleName : Option String
  tagsCall : Except PyExc (List (String × String))
  roleId : Option String
  createDateIso : Option String
  arn : Option String

/-- The body of the loop of `IAMScanner.scan_roles`. -/
def mkIamRoleRecord (r : RawIamRole) : Except PyExc ResourceMetadata :=
  match r.roleName with
  | none => .error (.keyError "RoleName")
  | some rname =>
    match (match r.tagsCall with
           | .ok ts => .ok ts
           | .error e => if e.isClientError then .ok [] else .error e :
           Except PyExc (List (String × String))) with
    | .error e => .error e
    | .ok tagPairs =>
      match r.roleId with
      | none => .error (.keyError "RoleId")
      | some rid =>
        match r.createDateIso with
        | none => .error (.keyError "CreateDate")
        | some cd =>
          match r.arn with
          | none => .error (.keyError "Arn")
          | some arn =>
            .ok { resource_id := rid
                  resource_name := some rname
                  resource_type := "IAM_Role"
                  region := "global"
                  state := "active"
                  creation_date := some cd
                  tags := dictOfPairs tagPairs
                  estimated_cost_monthly := none
                  additional_metadata := [("arn", arn)] }

/-! ## Orchestrator (`AWSResourceScanner`) -/

/-- The mutable state of an `AWSResourceScanner` instance: `self.errors`,
the only field `scan` writes (besides the session manager it owns). -/
structure ScannerState where
  errors : List (String × String)
  deriving DecidableEq, Repr

/-- `AWSResourceScanner.__init__` sets `self.errors = []`. -/
def scannerInit : ScannerState := ⟨[]⟩

/-- Oracle for one `scan` run: the outcome of the region-discovery call, the
outcomes of the regional scan futures in `as_completed` order, and the
outcomes of the three sequential global scans.  A `.error` task outcome is an
exception that escaped the scanner method and was caught by the collecting
loop (regional) or the surrounding `try` (global). -/
structure ScanEnv where
  describeRegions : Except PyExc (List RawRegion)
  taskResults : List (Except PyExc (List ResourceMetadata))
  s3Result : Except PyExc (List ResourceMetadata)
  iamUsersResult : Except PyExc (List ResourceMetadata)
  iamRolesResult : Except PyExc (List ResourceMetadata)

/-- Embedding of the `ScanResult` dataclass (without the wall-clock
timestamp, which no claim constrains). -/
structure ScanResultL where
  regions_scanned : List String
  resources : List ResourceMetadata
  errors : List (String × String)
  summary : Summary
  cost_summary : CostSummary
  deriving DecidableEq, Repr

/-- The `for future in as_completed(futures)` collection loop: successful
results extend `all_resources`, exceptions append a
`{'type': 'scan_error', 'message': str(e)}` entry to `self.errors`. -/
def collectFutures : List (Except PyExc (List ResourceMetadata)) →
    List ResourceMetadata × List (String × String) →
    List ResourceMetadata × List (String × String)
  | [], acc => acc
  | .ok r :: rest, (res, errs) => collectFutures rest (res ++ r, errs)
  | .error e :: rest, (res, errs) => collectFutures rest (res, errs ++ [("scan_error", e.str)])

/-- The resource/error accumulation of one `scan` run, starting from the
current `self.errors` value: the regional futures, then S3, then IAM users
and roles (the two IAM scans share one `try`, so a failure in `scan_users`
skips `scan_roles`). -/
def scanPhases (env : ScanEnv) (errs0 : List (String × String)) :
    List ResourceMetadata × List (String × String) :=
  let p1 := collectFutures env.taskResults ([], errs0)
  let p2 :=
    match env.s3Result with
    | .ok r => (p1.1 ++ r, p1.2)
    | .error e => (p1.1, p1.2 ++ [("S3_scan_error", e.str)])
  match env.iamUsersResult with
  | .error e => (p2.1, p2.2 ++ [("IAM_scan_error", e.str)])
  | .ok us =>
    match env.iamRolesResult with
    | .error e => (p2.1 ++ us, p2.2 ++ [("IAM_scan_error", e.str)])
    | .ok ro => (p2.1 ++ us ++ ro, p2.2)

/-- Embedding of `AWSResourceScanner.scan`: resolve regions (an exception
from `get_regions` propagates — `scan` has no handler around it), run all
scan phases, then build the summaries and the result.  Returns the result
together with the instance state after the run; note that `self.errors` is
never reset, so the state carries every error ever recorded. -/
def scan (st : ScannerState) (env : ScanEnv) : Except PyExc (ScanResultL × ScannerState) :=
  match get_regions env.describeRegions with
  | .error e => .error e
  | .ok regions =>
    let p := scanPhases env st.errors
    .ok ({ regions_scanned := regions
           resources := p.1
           errors := p.2
           summary := build_summary p.1
           cost_summary := build_cost_summary p.1 },
         ⟨p.2⟩)

/-- The error entries generated by the tasks of a single run. -/
def taskErrors (l : List (Except PyExc (List ResourceMetadata))) : List (String × String) :=
  l.filterMap (fun t =>
    match t with
    | .ok _ => none
    | .error e => some ("scan_error", e.str))

/-- All error entries a single run appends: task errors, then the S3 entry,
then the IAM entry. -/
def newScanErrors (env : ScanEnv) : List (String × String) :=
  taskErrors env.taskResults
    ++ (match env.s3Result with
        | .ok _ => []
        | .error e => [("S3_scan_error", e.str)])
    ++ (match env.iamUsersResult with
        | .error e => [("IAM_scan_error", e.str)]
        | .ok _ =>
          match env.iamRolesResult with
          | .error e => [("IAM_scan_error", e.str)]
          | .ok _ => [])

/-! ## Action subsystem (`resource_manager.py`) -/

/-- The fields of one instance read back by
`ResourceActionValidator.validate_ec2_stop`. -/
structure EC2DescribeInstance where
  stateName : String
  instanceType : Option String
  tags : List (String × String)
  deriving DecidableEq, Repr

/-- The dict returned by `validate_ec2_stop`: either
`{'valid': False, 'reason': ...}` or
`{'valid': True, 'current_state': ..., 'instance_type': ..., 'tags': ...}`. -/
inductive EC2StopValidation where
  | invalid (reason : String)
  | valid (current_state : String) (instance_type : Option String)
      (tags : List (String × String))
  deriving DecidableEq, Repr

/-- Embedding of `ResourceActionValidator.validate_ec2_stop`.  The argument
is the outcome of `ec2.describe_instances(InstanceIds=[instance_id])`; only
`ClientError` is converted into an `API error` invalidation. -/
def validate_ec2_stop (describe : Except PyExc (List (List EC2DescribeInstance))) :
    Except PyExc EC2StopValidation :=
  match describe with
  | .error e => if e.isClientError then .ok (.invalid ("API error: " ++ e.str)) else .error e
  | .ok reservations =>
    match reservations with
    | [] => .ok (.invalid "Instance not found")
    | insts :: _ =>
      match insts with
      | [] => .error (.indexError "list index out of range")
      | inst :: _ =>
        if inst.stateName = "stopped" then .ok (.invalid "Instance already stopped")
        else if inst.stateName = "stopping" then .ok (.invalid "Instance is already stopping")
        else if inst.stateName = "terminated" then .ok (.invalid "Instance is terminated")
        else if inst.stateName = "terminating" then .ok (.invalid "Instance is terminating")
        else .ok (.valid inst.stateName inst.instanceType (dictOfPairs inst.tags))

/-- The fields of one DB instance read back by `validate_rds_stop`. -/
structure RDSDescribeInstance where
  status : String
  engine : Option String
  allocatedStorage : Option Int
  deriving DecidableEq, Repr

/-- The dict returned by `validate_rds_stop`. -/
inductive RDSStopValidation where
  | invalid (reason : String)
  | valid (current_state : String) (engine : Option String) (allocated : Option Int)
  deriving DecidableEq, Repr

/-- Embedding of `ResourceActionValidator.validate_rds_stop`. -/
def validate_rds_stop (describe : Except PyExc (List RDSDescribeInstance)) :
    Except PyExc RDSStopValidation :=
  match describe with
  | .error e => if e.isClientError then .ok (.invalid ("API error: " ++ e.str)) else .error e
  | .ok dbs =>
    match dbs with
    | [] => .ok (.invalid "RDS instance not found")
    | db :: _ =>
      if db.status = "stopping" ∨ db.status = "stopped" then
        .ok (.invalid ("Instance already " ++ db.status))
      else .ok (.valid db.status db.engine db.allocatedStorage)

/-- The fields of one NAT gateway read back by `validate_nat_gateway_delete`. -/
structure NatDescribe where
  state : String
  subnetId : Option String
  deriving DecidableEq, Repr

/-- The dict returned by `validate_nat_gateway_delete`. -/
inductive NatDeleteValidation where
  | invalid (reason : String)
  | valid (current_state : String) (subnet_id : Option String)
  deriving DecidableEq, Repr

/-- Embedding of `ResourceActionValidator.validate_nat_gateway_delete`. -/
def validate_nat_gateway_delete (describe : Except PyExc (List NatDescribe)) :
    Except PyExc NatDeleteValidation :=
  match describe with
  | .error e => if e.isClientError then .ok (.invalid ("API error: " ++ e.str)) else .error e
  | .ok nats =>
    match nats with
    | [] => .ok (.invalid "NAT Gateway not found")
    | nat :: _ =>
      if nat.state = "deleted" then .ok (.invalid "NAT Gateway already deleted")
      else if nat.state = "deleting" then .ok (.invalid "NAT Gateway is already deleting")
      else .ok (.valid nat.state nat.subnetId)

/-- The fields of one address read back by `validate_elastic_ip_release`. -/
structure AddressDescribe where
  associationId : Option String
  instanceId : Option String
  publicIp : Option String
  deriving DecidableEq, Repr

/-- The dict returned by `validate_elastic_ip_release`; the still-associated
invalidation also surfaces the associated instance id. -/
inductive EipReleaseValidation where
  | invalid (reason : String) (associated_instance : Option String)
  | valid (public_ip : Option String)
  deriving DecidableEq, Repr

/-- Embedding of `ResourceActionValidator.validate_elastic_ip_release`. -/
def validate_elastic_ip_release (describe : Except PyExc (List AddressDescribe)) :
    Except PyExc EipReleaseValidation :=
  match describe with
  | .error e =>
    if e.isClientError then .ok (.invalid ("API error: " ++ e.str) none) else .error e
  | .ok addrs =>
    match addrs with
    | [] => .ok (.invalid "Elastic IP not found" none)
    | addr :: _ =>
      if addr.associationId.isSome then
        .ok (.invalid "Elastic IP is still associated with an instance" addr.instanceId)
      else .ok (.valid addr.publicIp)

/-- The fields of one volume read back inside `delete_ebs_volume`. -/
structure VolumeDescribe where
  state : String
  deriving DecidableEq, Repr

/-- Provider oracle for one `ResourceActionExecutor`: the outcome of every
provider call it may issue, as a function of the `resource_id` and `region`
arguments that the executor passes along (both may be `None` for malformed
bulk entries). -/
structure ExecEnv where
  ec2DescribeForStop : Option String → Option String → Except PyExc (List (List EC2DescribeInstance))
  ec2StopInstances : Option String → Option String → Except PyExc Unit
  ec2DescribeAfterStop : Option String → Option String → Except PyExc (List (List EC2DescribeInstance))
  rdsDescribe : Option String → Option String → Except PyExc (List RDSDescribeInstance)
  rdsStopDb : Option String → Option String → Except PyExc Unit
  natDescribe : Option String → Option String → Except PyExc (List NatDescribe)
  natDelete : Option String → Option String → Except PyExc Unit
  eipDescribe : Option String → Option String → Except PyExc (List AddressDescribe)
  eipRelease : Option String → Option String → Except PyExc Unit
  ebsDescribe : Option String → Option String → Except PyExc (List VolumeDescribe)
  ebsDelete : Option String → Option String → Except PyExc Unit
  s3ListObjects : Option String → Except PyExc Bool
  s3DeleteBucket : Option String → Except PyExc Unit

/-- Embedding of `ResourceActionExecutor.stop_ec2_instance`.  The second
component is the trace of provider calls issued (mutating calls are
`stop_instances`).  The validator call sits before the `try`, so an
exception from it propagates; inside the `try` only `ClientError` is
caught, and the verification read's nested indexing can raise
`IndexError`. -/
def stop_ec2_instance (env : ExecEnv) (iid region : Option String) :
    Except PyExc DeleteResult × List String :=
  match validate_ec2_stop (env.ec2DescribeForStop iid region) with
  | .error e => (.error e, ["describe_instances"])
  | .ok (.invalid reason) =>
    (.ok { success := false, resource_id := iid, resource_type := some "EC2_Instance"
           action := "stop", message := reason, verification_status := "failed"
           error := some reason }, ["describe_instances"])
  | .ok (.valid _ _ _) =>
    match env.ec2StopInstances iid region with
    | .error e =>
      if e.isClientError then
        (.ok { success := false, resource_id := iid, resource_type := some "EC2_Instance"
               action := "stop", message := "Failed to stop instance"
               verification_status := "failed", error := some e.str },
         ["describe_instances", "stop_instances"])
      else (.error e, ["describe_instances", "stop_instances"])
    | .ok _ =>
      match env.ec2DescribeAfterStop iid region with
      | .error e =>
        if e.isClientError then
          (.ok { success := false, resource_id := iid, resource_type := some "EC2_Instance"
                 action := "stop", message := "Failed to stop instance"
                 verification_status := "failed", error := some e.str },
           ["describe_instances", "stop_instances", "describe_instances"])
        else (.error e, ["describe_instances", "stop_instances", "describe_instances"])
      | .ok resv =>
        match resv with
        | [] => (.error (.indexError "list index out of range"),
                 ["describe_instances", "stop_instances", "describe_instances"])
        | insts :: _ =>
          match insts with
          | [] => (.error (.indexError "list index out of range"),
                   ["describe_instances", "stop_instances", "describe_instances"])
          | inst :: _ =>
            (.ok { success := true, resource_id := iid, resource_type := some "EC2_Instance"
                   action := "stop"
                   message := "Instance stop initiated. Current state: " ++ inst.stateName
                   verification_status := "verified", error := none },
             ["describe_instances", "stop_instances", "describe_instances"])

/-- Embedding of `ResourceActionExecutor.stop_rds_instance`. -/
def stop_rds_instance (env : ExecEnv) (did region : Option String) :
    Except PyExc DeleteResult × List String :=
  match validate_rds_stop (env.rdsDescribe did region) with
  | .error e => (.error e, ["describe_db_instances"])
  | .ok (.invalid reason) =>
    (.ok { success := false, resource_id := did, resource_type := some "RDS_Instance"
           action := "stop", message := reason, verification_status := "failed"
           error := some reason }, ["describe_db_instances"])
  | .ok (.valid _ _ _) =>
    match env.rdsStopDb did region with
    | .error e =>
      if e.isClientError then
        (.ok { success := false, resource_id := did, resource_type := some "RDS_Instance"
               action := "stop", message := "Failed to stop RDS instance"
               verification_status := "failed", error := some e.str },
         ["describe_db_instances", "stop_db_instance"])
      else (.error e, ["describe_db_instances", "stop_db_instance"])
    | .ok _ =>
      (.ok { success := true, resource_id := did, resource_type := some "RDS_Instance"
             action := "stop", message := "RDS instance stop initiated"
             verification_status := "verified", error := none },
       ["describe_db_instances", "stop_db_instance"])

/-- Embedding of `ResourceActionExecutor.delete_nat_gateway`. -/
def delete_nat_gateway (env : ExecEnv) (nid region : Option String) :
    Except PyExc DeleteResult × List String :=
  match validate_nat_gateway_delete (env.natDescribe nid region) with
  | .error e => (.error e, ["describe_nat_gateways"])
  | .ok (.invalid reason) =>
    (.ok { success := false, resource_id := nid, resource_type := some "NAT_Gateway"
           action := "delete", message := reason, verification_status := "failed"
           error := some reason }, ["describe_nat_gateways"])
  | .ok (.valid _ _) =>
    match env.natDelete nid region with
    | .error e =>
      if e.isClientError then
        (.ok { success := false, resource_id := nid, resource_type := some "NAT_Gateway"
               action := "delete", message := "Failed to delete NAT Gateway"
               verification_status := "failed", error := some e.str },
         ["describe_nat_gateways", "delete_nat_gateway"])
      else (.error e, ["describe_nat_gateways", "delete_nat_gateway"])
    | .ok _ =>
      (.ok { success := true, resource_id := nid, resource_type := some "NAT_Gateway"
             action := "delete", message := "NAT Gateway deletion initiated"
             verification_status := "verified", error := none },
       ["describe_nat_gateways", "delete_nat_gateway"])

/-- Embedding of `ResourceActionExecutor.release_elastic_ip`. -/
def release_elastic_ip (env : ExecEnv) (aid region : Option String) :
    Except PyExc DeleteResult × List String :=
  match validate_elastic_ip_release (env.eipDescribe aid region) with
  | .error e => (.error e, ["describe_addresses"])
  | .ok (.invalid reason _) =>
    (.ok { success := false, resource_id := aid, resource_type := some "Elastic_IP"
           action := "delete", message := reason, verification_status := "failed"
           error := some reason }, ["describe_addresses"])
  | .ok (.valid _) =>
    match env.eipRelease aid region with
    | .error e =>
      if e.isClientError then
        (.ok { success := false, resource_id := aid, resource_type := some "Elastic_IP"
               action := "delete", message := "Failed to release Elastic IP"
               verification_status := "failed", error := some e.str },
         ["describe_addresses", "release_address"])
      else (.error e, ["describe_addresses", "release_address"])
    | .ok _ =>
      (.ok { success := true, resource_id := aid, resource_type := some "Elastic_IP"
             action := "delete", message := "Elastic IP released successfully"
             verification_status := "verified", error := none },
       ["describe_addresses", "release_address"])

/-- Embedding of `ResourceActionExecutor.delete_ebs_volume`: validation is
inlined, and one `try ... except ClientError` wraps the describe and the
delete. -/
def delete_ebs_volume (env : ExecEnv) (vid region : Option String) :
    Except PyExc DeleteResult × List String :=
  match env.ebsDescribe vid region with
  | .error e =>
    if e.isClientError then
      (.ok { success := false, resource_id := vid, resource_type := some "EBS_Volume"
             action := "delete", message := "Failed to delete EBS volume"
             verification_status := "failed", error := some e.str }, ["describe_volumes"])
    else (.error e, ["describe_volumes"])
  | .ok vols =>
    match vols with
    | [] =>
      (.ok { success := false, resource_id := vid, resource_type := some "EBS_Volume"
             action := "delete", message := "Volume not found"
             verification_status := "failed", error := none }, ["describe_volumes"])
    | vol :: _ =>
      if vol.state ≠ "available" then
        (.ok { success := false, resource_id := vid, resource_type := some "EBS_Volume"
               action := "delete"
               message := "Volume is in " ++ vol.state ++ " state. Must be available to delete."
               verification_status := "failed"
               error := some ("Volume state: " ++ vol.state) }, ["describe_volumes"])
      else
        match env.ebsDelete vid region with
        | .error e =>
          if e.isClientError then
            (.ok { success := false, resource_id := vid, resource_type := some "EBS_Volume"
                   action := "delete", message := "Failed to delete EBS volume"
                   verification_status := "failed", error := some e.str },
             ["describe_volumes", "delete_volume"])
          else (.error e, ["describe_volumes", "delete_volume"])
        | .ok _ =>
          (.ok { success := true, resource_id := vid, resource_type := some "EBS_Volume"
                 action := "delete", message := "EBS volume deleted successfully"
                 verification_status := "verified", error := none },
           ["describe_volumes", "delete_volume"])

/-- Embedding of the body of `ResourceActionExecutor.delete_s3_bucket`
(signature: one `bucket_name` parameter).  `execute_action` can never reach
this body — it calls every handler with two positional arguments — but the
body is embedded for completeness.  The `s3ListObjects` oracle returns
whether `'Contents'` is present in the `list_objects_v2` response. -/
def delete_s3_bucket (env : ExecEnv) (bucket : Option String) :
    Except PyExc DeleteResult × List String :=
  let deletePart : Except PyExc DeleteResult × List String :=
    match env.s3DeleteBucket bucket with
    | .error e =>
      if e.isClientError then
        (.ok { success := false, resource_id := bucket, resource_type := some "S3_Bucket"
               action := "delete", message := "Failed to delete S3 bucket"
               verification_status := "failed", error := some e.str },
         ["list_objects_v2", "delete_bucket"])
      else (.error e, ["list_objects_v2", "delete_bucket"])
    | .ok _ =>
      (.ok { success := true, resource_id := bucket, resource_type := some "S3_Bucket"
             action := "delete", message := "S3 bucket deleted successfully"
             verification_status := "verified", error := none },
       ["list_objects_v2", "delete_bucket"])
  match env.s3ListObjects bucket with
  | .error e =>
    if e.isClientError then deletePart
    else (.error e, ["list_objects_v2"])
  | .ok hasContents =>
    if hasContents then
      (.ok { success := false, resource_id := bucket, resource_type := some "S3_Bucket"
             action := "delete"
             message := "Bucket is not empty. All objects must be deleted first."
             verification_status := "failed", error := none }, ["list_objects_v2"])
    else deletePart

/-- The `ActionType` enum. -/
inductive ActionType where
  | stop
  | delete
  | terminate
  deriving DecidableEq, Repr

/-- The `.value` of each `ActionType` member. -/
def ActionType.value : ActionType → String
  | .stop => "stop"
  | .delete => "delete"
  | .terminate => "terminate"

/-- The handlers that appear as values of the `action_map` dict. -/
inductive HandlerId where
  | stopEC2
  | stopRDS
  | deleteNAT
  | releaseEIP
  | deleteEBS
  | deleteS3
  deriving DecidableEq, Repr

/-- Number of positional arguments (after `self`) each handler's Python
signature accepts; `delete_s3_bucket` takes only `bucket_name`. -/
def HandlerId.pyArity : HandlerId → Nat
  | .deleteS3 => 1
  | _ => 2

/-- The `action_map` dict of `execute_action`, keyed by
`(resource_type, action)`. -/
def action_map : List ((String × ActionType) × HandlerId) :=
  [(("EC2_Instance", .stop), .stopEC2),
   (("RDS_Instance", .stop), .stopRDS),
   (("NAT_Gateway", .delete), .deleteNAT),
   (("Elastic_IP", .delete), .releaseEIP),
   (("EBS_Volume", .delete), .deleteEBS),
   (("S3_Bucket", .delete), .deleteS3)]

/-- `action_map.get((resource_type, action))`; `resource_type` may be `None`,
which matches no key. -/
def lookupAction : List ((String × ActionType) × HandlerId) → Option String → ActionType →
    Option HandlerId
  | [], _, _ => none
  | ((t, act), h) :: rest, rt, a =>
    if rt = some t ∧ a = act then some h else lookupAction rest rt a

/-- The call `action_func(resource_id, region)` of `execute_action`: two
positional arguments are passed, so the one-parameter `delete_s3_bucket`
raises `TypeError` before its body runs and before any provider call. -/
def callHandler (env : ExecEnv) (h : HandlerId) (rid region : Option String) :
    Except PyExc DeleteResult × List String :=
  match h with
  | .stopEC2 => stop_ec2_instance env rid region
  | .stopRDS => stop_rds_instance env rid region
  | .deleteNAT => delete_nat_gateway env rid region
  | .releaseEIP => release_elastic_ip env rid region
  | .deleteEBS => delete_ebs_volume env rid region
  | .deleteS3 =>
    (.error (.typeError "delete_s3_bucket takes 2 positional arguments but 3 were given"), [])

/-- Embedding of `ResourceActionExecutor.execute_action`: fixed dispatch via
`action_map`, unmapped pairs reported without any provider call, and a
catch-all `except Exception` converting any escaped exception into a failed
outcome. -/
def execute_action (env : ExecEnv) (resource_type : Option String) (resource_id : Option String)
    (region : Option String) (action : ActionType) : DeleteResult × List String :=
  match lookupAction action_map resource_type action with
  | none =>
    ({ success := false, resource_id := resource_id, resource_type := resource_type
       action := action.value
       message := "Unsupported action " ++ action.value ++ " for resource type "
         ++ pyStr resource_type
       verification_status := "failed", error := none }, [])
  | some h =>
    match callHandler env h resource_id region with
    | (.ok r, tr) => (r, tr)
    | (.error e, tr) =>
      ({ success := false, resource_id := resource_id, resource_type := resource_type
         action := action.value, message := "Unexpected error during action execution"
         verification_status := "failed", error := some e.str }, tr)

/-! ## Bulk endpoint (`api.py`, `perform_bulk_action`) -/

/-- One entry of the request's `actions` list; every field is read with
`dict.get` and may be absent. -/
structure BulkEntry where
  resource_id : Option String
  resource_type : Option String
  region : Option String
  action : Option String
  deriving DecidableEq, Repr

/-- The per-entry dict appended to `results`. -/
structure BulkItemResult where
  resource_id : Option String
  success : Bool
  message : String
  deriving DecidableEq, Repr

/-- `ActionType[name]`: enum member lookup by name, raising `KeyError` on a
miss. -/
def actionTypeOfName (s : String) : Except PyExc ActionType :=
  if s = "STOP" then .ok .stop
  else if s = "DELETE" then .ok .delete
  else if s = "TERMINATE" then .ok .terminate
  else .error (.keyError s)

/-- The body of the per-entry loop of `perform_bulk_action`: parse the
action name (`.get('action', '').lower()` then `ActionType[... .upper()]`),
run `execute_action`, and record the outcome; the inner
`except Exception` turns any exception into this entry's failure outcome. -/
def processEntry (env : ExecEnv) (e : BulkEntry) : BulkItemResult :=
  match actionTypeOfName ((e.action.getD "").toLower.toUpper) with
  | .error exc => { resource_id := e.resource_id, success := false, message := exc.str }
  | .ok act =>
    let r := (execute_action env e.resource_type e.resource_id e.region act).1
    { resource_id := r.resource_id, success := r.success, message := r.message }

/-- The response body of `perform_bulk_action` (success case). -/
structure BulkResponse where
  total_actions : Nat
  successful : Nat
  failed : Nat
  results : List BulkItemResult
  deriving DecidableEq, Repr

/-- Embedding of the core of `api.perform_bulk_action`: the empty-list
guard (`400 No actions provided`), the sequential per-entry loop, and the
aggregated success/failure counts. -/
def perform_bulk_action (env : ExecEnv) (entries : List BulkEntry) :
    Except String BulkResponse :=
  if entries = [] then .error "No actions provided"
  else
    let results := entries.foldl (fun acc e => acc ++ [processEntry env e]) []
    .ok { total_actions := results.length
          successful := (results.filter (fun r => r.success)).length
          failed := (results.filter (fun r => !r.success)).length
          results := results }

/-! ## Concrete inputs used by counterexamples and witnesses -/

/-- A bucket-call oracle on which every sub-call succeeds trivially. -/
def trivialBucketEnv : BucketEnv :=
  { getBucketLocation := fun _ => .ok none
    getBucketTagging := fun _ => .ok []
    getMetricDatapoints := fun _ => .ok [] }

/-- A provider oracle for the executor on which every read finds nothing and
every mutation succeeds. -/
def trivialExecEnv : ExecEnv :=
  { ec2DescribeForStop := fun _ _ => .ok []
    ec2StopInstances := fun _ _ => .ok ()
    ec2DescribeAfterStop := fun _ _ => .ok []
    rdsDescribe := fun _ _ => .ok []
    rdsStopDb := fun _ _ => .ok ()
    natDescribe := fun _ _ => .ok []
    natDelete := fun _ _ => .ok ()
    eipDescribe := fun _ _ => .ok []
    eipRelease := fun _ _ => .ok ()
    ebsDescribe := fun _ _ => .ok []
    ebsDelete := fun _ _ => .ok ()
    s3ListObjects := fun _ => .ok false
    s3DeleteBucket := fun _ => .ok () }

/-- A listed EC2 instance whose `InstanceId` key is missing: a malformed
listing entry. -/
def c1BadInstance : RawInstance :=
  { instanceId := none, tags := [], stateName := some "running"
    launchTimeIso := some "2024-01-01T00:00:00", instanceType := none
    vpcId := none, subnetId := none, publicIp := none, privateIp := none }

/-- A scan environment whose one regional task failed with a non-ClientError
exception. -/
def c3Env1 : ScanEnv :=
  { describeRegions := .error (.clientError "denied")
    taskResults := [.error (.botoCoreError "task boom")]
    s3Result := .ok [], iamUsersResult := .ok [], iamRolesResult := .ok [] }

/-- A scan environment in which every task succeeds with no records. -/
def c3Env2 : ScanEnv :=
  { describeRegions := .error (.clientError "denied")
    taskResults := [.ok []]
    s3Result := .ok [], iamUsersResult := .ok [], iamRolesResult := .ok [] }

/-- The result a `scan` run over `c3Env2` produces when the instance already
carries one recorded error. -/
def c3WitnessRes : ScanResultL :=
  { regions_scanned := fallbackRegions
    resources := []
    errors := [("scan_error", "old")]
    summary := build_summary []
    cost_summary := build_cost_summary [] }

/-- The instance state after that run. -/
def c3WitnessSt : ScannerState := ⟨[("scan_error", "old")]⟩

/-- A described EC2 instance that is already stopped. -/
def c4Inst : EC2DescribeInstance :=
  { stateName := "stopped", instanceType := some "t3.micro", tags := [] }

/-- An executor oracle whose instance-describe call always finds `c4Inst`. -/
def c4Env : ExecEnv :=
  { trivialExecEnv with ec2DescribeForStop := fun _ _ => .ok [[c4Inst]] }

/-- A scan environment whose region discovery fails with a `ClientError`. -/
def c5Env : ScanEnv :=
  { describeRegions := .error (.clientError "UnauthorizedOperation")
    taskResults := [], s3Result := .ok [], iamUsersResult := .ok [], iamRolesResult := .ok [] }

/-- A bulk request with three entries whose second entry is malformed
(missing `resource_id`). -/
def c6Entries : List BulkEntry :=
  [{ resource_id := some "i-1", resource_type := some "EC2_Instance"
     region := some "us-east-1", action := some "stop" },
   { resource_id := none, resource_type := some "EC2_Instance"
     region := some "us-east-1", action := some "stop" },
   { resource_id := some "i-3", resource_type := some "EC2_Instance"
     region := some "us-east-1", action := some "stop" }]

/-- A record worth 0.004 dollars a month, of one type. -/
def c7recA : ResourceMetadata :=
  { resource_id := "nat-1", resource_name := none, resource_type := "NAT_Gateway"
    region := "us-east-1", state := "available", creation_date := none, tags := []
    estimated_cost_monthly := some (1/250), additional_metadata := [] }

/-- A record worth 0.004 dollars a month, of another type. -/
def c7recB : ResourceMetadata :=
  { resource_id := "eip-1", resource_name := none, resource_type := "Elastic_IP"
    region := "us-east-1", state := "unassociated", creation_date := none, tags := []
    estimated_cost_monthly := some (1/250), additional_metadata := [] }

/-- A session holding credentials, an active session object and one cached
client. -/
def c8Session : SessionState :=
  { region := "us-east-1", access_key := some "AKIAEXAMPLEKEY"
    secret_key := some "exampleSecretMaterial", session_active := true
    clients := ["ec2_us-east-1"] }

/-- A well-formed listed EC2 instance. -/
def c10Inst : RawInstance :=
  { instanceId := some "i-1", tags := [], stateName := some "running"
    launchTimeIso := some "2024-01-01T00:00:00", instanceType := none
    vpcId := none, subnetId := none, publicIp := none, privateIp := none }

/-- The record the EC2 instance scanner builds from `c10Inst`. -/
def c10Rec : ResourceMetadata :=
  { resource_id := "i-1", resource_name := some "Unnamed"
    resource_type := "EC2_Instance", region := "us-east-1", state := "running"
    creation_date := some "2024-01-01T00:00:00", tags := []
    estimated_cost_monthly := none
    additional_metadata :=
      [("instance_type", "None"), ("vpc_id", "None"), ("subnet_id", "None"),
       ("public_ip", "None"), ("private_ip", "None")] }

/-! ## Helper lemmas -/

theorem valsSum_incr (m : List (String × Nat)) (k : String) :
    valsSum (incr m k) = valsSum m + 1 := by
  induction m with
  | nil => simp [incr, valsSum]
  | cons hd tl ih =>
    obtain ⟨k₁, v₁⟩ := hd
    by_cases h : k₁ = k <;> simp [incr, valsSum, h] at ih ⊢ <;> omega

theorem valsSum_foldl_summaryStep (l : List ResourceMetadata)
    (a : List (String × Nat) × List (String × Nat) × List (String × Nat)) :
    valsSum (l.foldl summaryStep a).1 = valsSum a.1 + l.length ∧
    valsSum (l.foldl summaryStep a).2.1 = valsSum a.2.1 + l.length ∧
    valsSum (l.foldl summaryStep a).2.2 = valsSum a.2.2 + l.length := by
  induction l generalizing a with
  | nil => simp
  | cons r tl ih =>
    obtain ⟨h1, h2, h3⟩ := ih (summaryStep a r)
    simp only [List.foldl_cons, List.length_cons]
    rw [h1, h2, h3]
    refine ⟨?_, ?_, ?_⟩ <;> simp [summaryStep, valsSum_incr] <;> omega

theorem lookupQ_addCost_self (m : List (String × ℚ)) (k : String) (c : ℚ) :
    lookupQ (addCost m k c) k = some ((lookupQ m k).getD 0 + c) := by
  induction m with
  | nil => simp [addCost, lookupQ]
  | cons hd tl ih =>
    obtain ⟨k₁, v₁⟩ := hd
    by_cases h : k₁ = k
    · subst h; simp [addCost, lookupQ]
    · simp only [addCost, h, if_false, lookupQ]
      exact ih

theorem lookupQ_addCost_ne (m : List (String × ℚ)) (k k' : String) (c : ℚ) (h : k ≠ k') :
    lookupQ (addCost m k c) k' = lookupQ m k' := by
  induction m with
  | nil => simp [addCost, lookupQ, h]
  | cons hd tl ih =>
    obtain ⟨k₁, v₁⟩ := hd
    by_cases h₁ : k₁ = k
    · subst h₁
      simp [addCost, lookupQ, h]
    · simp only [addCost, h₁, if_false, lookupQ]
      by_cases h₂ : k₁ = k' <;> simp [h₂, ih]

theorem valsSumQ_addCost (m : List (String × ℚ)) (k : String) (c : ℚ) :
    valsSumQ (addCost m k c) = valsSumQ m + c := by
  induction m with
  | nil => simp [addCost, valsSumQ]
  | cons hd tl ih =>
    obtain ⟨k₁, v₁⟩ := hd
    by_cases h : k₁ = k <;> simp [addCost, valsSumQ, h] at ih ⊢ <;>
      [ring; (rw [ih]; ring)]

theorem lookupQ_foldl_addCost (rs : List ResourceMetadata)
    (m : List (String × ℚ)) (k : String) :
    lookupQ (rs.foldl (fun m r => addCost m r.resource_type (costOrZero r.estimated_cost_monthly)) m) k =
      if (lookupQ m k).isSome ∨ rs.any (fun r => r.resource_type = k) then
        some ((lookupQ m k).getD 0 + typeCost k rs)
      else none := by
  induction rs generalizing m with
  | nil =>
    cases h : lookupQ m k <;> simp [typeCost, h]
  | cons r tl ih =>
    simp only [List.foldl_cons]
    rw [ih]
    by_cases hk : r.resource_type = k
    · rw [hk, lookupQ_addCost_self]
      have ht : typeCost k (r :: tl) = costOrZero r.estimated_cost_monthly + typeCost k tl := by
        simp [typeCost, hk]
      have hcond : (lookupQ m k).isSome = true ∨
          ((r :: tl).any fun x => decide (x.resource_type = k)) = true :=
        Or.inr (by simp [hk])
      simp only [Option.isSome_some, true_or, if_true, Option.getD_some]
      rw [if_pos hcond, ht]
      congr 1
      ring
    · rw [lookupQ_addCost_ne m r.resource_type k _ hk]
      have ht : typeCost k (r :: tl) = typeCost k tl := by
        simp [typeCost, hk]
      have ha : ((r :: tl).any fun x => decide (x.resource_type = k)) =
          (tl.any fun x => decide (x.resource_type = k)) := by
        simp [hk]
      rw [ht, ha]

theorem valsSumQ_foldl_addCost (rs : List ResourceMetadata) (m : List (String × ℚ)) :
    valsSumQ (rs.foldl (fun m r => addCost m r.resource_type (costOrZero r.estimated_cost_monthly)) m) =
      valsSumQ m + totalCost rs := by
  induction rs generalizing m with
  | nil => simp [totalCost]
  | cons r tl ih =>
    simp only [List.foldl_cons]
    rw [ih, valsSumQ_addCost]
    simp [totalCost]
    ring

theorem lookupQ_map_round2 (m : List (String × ℚ)) (k : String) :
    lookupQ (m.map (fun p => (p.1, round2 p.2))) k = (lookupQ m k).map round2 := by
  induction m with
  | nil => simp [lookupQ]
  | cons hd tl ih =>
    obtain ⟨k₁, v₁⟩ := hd
    by_cases h : k₁ = k <;> simp [lookupQ, h, ih]

theorem collectFutures_errs (l : List (Except PyExc (List ResourceMetadata)))
    (res : List ResourceMetadata) (errs : List (String × String)) :
    (collectFutures l (res, errs)).2 = errs ++ taskErrors l := by
  induction l generalizing res errs with
  | nil => simp [collectFutures, taskErrors]
  | cons t rest ih =>
    cases t <;> simp [collectFutures, taskErrors, ih]

theorem scanPhases_errs (env : ScanEnv) (errs0 : List (String × String)) :
    (scanPhases env errs0).2 = errs0 ++ newScanErrors env := by
  unfold scanPhases newScanErrors
  cases env.s3Result <;> cases env.iamUsersResult <;> cases env.iamRolesResult <;>
    simp [collectFutures_errs]

/-! ## Claim theorems -/

theorem scannerReturn_raisesClientError (p : List ResourceMetadata × Option PyExc) :
    (scannerReturn p).raisesClientError = false := by
  unfold scannerReturn
  cases hp : p.2 with
  | none => rfl
  | some e =>
    by_cases hc : e.isClientError <;> simp [hc, ScanOutcome.raisesClientError]

/-- C1 counterexample: a malformed listing entry — an instance dict without
an `InstanceId` key — makes `EC2Scanner.scan_instances` raise `KeyError`
outward instead of returning the partial list, refuting `the call never
raises outward ... including malformed listings`. -/
theorem C1_counterexample :
    scan_instances "us-east-1" (.ok [⟨[c1BadInstance]⟩])
      = .raised (.keyError "InstanceId") := by
  rfl

/-- C1 (amended): the scanner methods never let a `ClientError` escape — a
provider-call failure raised as `ClientError` (authorization, throttling,
not-found) is caught and the partial list accumulated so far is returned, in
particular the empty list when the initial listing call fails — but
exceptions of any other class, such as the `KeyError` raised by a malformed
listing entry, propagate outward. -/
theorem C1_scanner_error_containment (region : String)
    (call : Except PyExc (List RawReservation))
    (lb : Except PyExc (List RawBucket)) (env : BucketEnv) (m : String) :
    (scan_instances region call).raisesClientError = false
    ∧ (call = .error (.clientError m) → scan_instances region call = .ok [])
    ∧ (scan_buckets lb env).raisesClientError = false
    ∧ (lb = .error (.clientError m) → scan_buckets lb env = .ok []) := by
  refine ⟨?_, ?_, ?_, ?_⟩
  · cases call with
    | error e =>
      by_cases hc : e.isClientError <;>
        simp [scan_instances, hc, ScanOutcome.raisesClientError]
    | ok rs => exact scannerReturn_raisesClientError _
  · intro h; subst h; rfl
  · cases lb with
    | error e =>
      by_cases hc : e.isClientError <;>
        simp [scan_buckets, hc, ScanOutcome.raisesClientError]
    | ok bs => exact scannerReturn_raisesClientError _
  · intro h; subst h; rfl

/-- C1 witness: both scanners, given an authorization `ClientError` from the
listing call, swallow it and return the empty partial list. -/
theorem C1_witness :
    (scan_instances "us-east-1" (.error (.clientError "AccessDenied"))).raisesClientError
      = false
    ∧ scan_instances "us-east-1" (.error (.clientError "AccessDenied")) = .ok []
    ∧ (scan_buckets (.error (.clientError "AccessDenied")) trivialBucketEnv).raisesClientError
      = false
    ∧ scan_buckets (.error (.clientError "AccessDenied")) trivialBucketEnv = .ok [] := by
  obtain ⟨h1, h2, h3, h4⟩ := C1_scanner_error_containment "us-east-1"
    (.error (.clientError "AccessDenied")) (.error (.clientError "AccessDenied"))
    trivialBucketEnv "AccessDenied"
  exact ⟨h1, h2 rfl, h3, h4 rfl⟩

/-- C3 counterexample: after a first scan whose one task failed, a second
scan over an environment that generates no errors at all still returns a
result whose errors list contains the first scan's error — `self.errors` is
never reset — refuting the claim that a second scan's errors contain only
that scan's task errors. -/
theorem C3_counterexample :
    (scan scannerInit c3Env1).map (fun p => p.2) = .ok ⟨[("scan_error", "task boom")]⟩
    ∧ newScanErrors c3Env2 = []
    ∧ (scan ⟨[("scan_error", "task boom")]⟩ c3Env2).map (fun p => p.1.errors)
        = .ok [("scan_error", "task boom")] :=
  ⟨rfl, rfl, rfl⟩

/-- C3 (amended): the orchestrator's `self.errors` persists across scans —
every scan returns a result whose errors list is the instance's accumulated
errors so far followed by this run's new errors, and leaves that
concatenation in the instance state for the next run. -/
theorem C3_errors_accumulate (st : ScannerState) (env : ScanEnv)
    (res : ScanResultL) (st' : ScannerState)
    (h : scan st env = .ok (res, st')) :
    res.errors = st.errors ++ newScanErrors env ∧ st'.errors = res.errors := by
  unfold scan at h
  cases hr : get_regions env.describeRegions with
  | error e => rw [hr] at h; exact Except.noConfusion h
  | ok regions =>
    rw [hr] at h
    injection h with h
    rw [Prod.mk.injEq] at h
    obtain ⟨hA, hB⟩ := h
    subst hA
    subst hB
    exact ⟨scanPhases_errs env st.errors, rfl⟩

/-- C3 witness: a scan starting from an instance that already recorded one
error returns that error plus the run's own (here: none). -/
theorem C3_witness :
    c3WitnessRes.errors = [("scan_error", "old")] ++ newScanErrors c3Env2
    ∧ c3WitnessSt.errors = c3WitnessRes.errors :=
  C3_errors_accumulate ⟨[("scan_error", "old")]⟩ c3Env2 c3WitnessRes c3WitnessSt rfl

/-- C4: for every described current state in `{stopped, stopping,
terminated, terminating}` the EC2 stop validator returns invalid, and
executing stop on an instance whose provider-read state is `stopped` returns
`success = false`, `verification_status = failed`, with a reason containing
`already stopped`, while the provider-call trace shows only the validation
read — no mutating `stop_instances` call is issued. -/
theorem C4_stop_validation (inst : EC2DescribeInstance) (rest : List EC2DescribeInstance)
    (resvRest : List (List EC2DescribeInstance)) (env : ExecEnv)
    (iid region : Option String) :
    (inst.stateName = "stopped" ∨ inst.stateName = "stopping" ∨
      inst.stateName = "terminated" ∨ inst.stateName = "terminating" →
      ∃ r, validate_ec2_stop (.ok ((inst :: rest) :: resvRest)) = .ok (.invalid r))
    ∧ (env.ec2DescribeForStop iid region = .ok ((inst :: rest) :: resvRest) →
       inst.stateName = "stopped" →
       stop_ec2_instance env iid region =
         (.ok { success := false, resource_id := iid, resource_type := some "EC2_Instance"
                action := "stop", message := "Instance already stopped"
                verification_status := "failed", error := some "Instance already stopped" },
          ["describe_instances"])
       ∧ ("already stopped".toList <:+: "Instance already stopped".toList)) := by
  have hval : validate_ec2_stop (.ok ((inst :: rest) :: resvRest)) =
      (if inst.stateName = "stopped" then .ok (.invalid "Instance already stopped")
       else if inst.stateName = "stopping" then .ok (.invalid "Instance is already stopping")
       else if inst.stateName = "terminated" then .ok (.invalid "Instance is terminated")
       else if inst.stateName = "terminating" then .ok (.invalid "Instance is terminating")
       else .ok (.valid inst.stateName inst.instanceType (dictOfPairs inst.tags))) := rfl
  constructor
  · intro h
    rcases h with h | h | h | h
    · exact ⟨"Instance already stopped", by rw [hval, h, if_pos rfl]⟩
    · exact ⟨"Instance is already stopping", by
        rw [hval, h, if_neg (by decide : ¬("stopping" = "stopped")), if_pos rfl]⟩
    · exact ⟨"Instance is terminated", by
        rw [hval, h, if_neg (by decide : ¬("terminated" = "stopped")),
          if_neg (by decide : ¬("terminated" = "stopping")), if_pos rfl]⟩
    · exact ⟨"Instance is terminating", by
        rw [hval, h, if_neg (by decide : ¬("terminating" = "stopped")),
          if_neg (by decide : ¬("terminating" = "stopping")),
          if_neg (by decide : ¬("terminating" = "terminated")), if_pos rfl]⟩
  · intro hd hs
    have hv : validate_ec2_stop (env.ec2DescribeForStop iid region) =
        .ok (.invalid "Instance already stopped") := by
      rw [hd, hval, hs, if_pos rfl]
    refine ⟨?_, by decide⟩
    unfold stop_ec2_instance
    rw [hv]

/-- C4 witness: on an already-stopped concrete instance the validator is
invalid, and stop returns the failed outcome with the `already stopped`
reason after only the validation read. -/
theorem C4_witness :
    (∃ r, validate_ec2_stop (.ok [[c4Inst]]) = .ok (.invalid r))
    ∧ stop_ec2_instance c4Env (some "i-1") (some "us-east-1") =
        (.ok { success := false, resource_id := some "i-1"
               resource_type := some "EC2_Instance", action := "stop"
               message := "Instance already stopped", verification_status := "failed"
               error := some "Instance already stopped" },
         ["describe_instances"])
    ∧ ("already stopped".toList <:+: "Instance already stopped".toList) := by
  obtain ⟨h1, h2⟩ := C4_stop_validation c4Inst [] [] c4Env (some "i-1") (some "us-east-1")
  obtain ⟨h2a, h2b⟩ := h2 rfl rfl
  exact ⟨h1 (Or.inl rfl), h2a, h2b⟩

/-- C5 counterexample: a region-discovery failure that is not a
`ClientError` — a connection-level `BotoCoreError` — propagates out of
`get_regions` instead of producing the fallback list, refuting `for every
outcome of the region-discovery capability, region listing never raises`. -/
theorem C5_counterexample :
    get_regions (.error (.botoCoreError "Could not connect to the endpoint URL"))
      = .error (.botoCoreError "Could not connect to the endpoint URL") := by
  rfl

/-- C5 (amended): when region discovery fails with a `ClientError`,
`get_regions` returns the fixed non-empty hardcoded fallback list instead of
raising, and a scan in that situation completes with `regions_scanned` equal
to the fallback list; discovery failures of any other exception class
propagate (see the counterexample). -/
theorem C5_clienterror_falls_back (m : String) (st : ScannerState) (env : ScanEnv)
    (h : env.describeRegions = .error (.clientError m)) :
    get_regions env.describeRegions = .ok fallbackRegions
    ∧ fallbackRegions ≠ []
    ∧ ∃ res st', scan st env = .ok (res, st') ∧ res.regions_scanned = fallbackRegions := by
  have hg : get_regions env.describeRegions = .ok fallbackRegions := by rw [h]; rfl
  refine ⟨hg, by simp [fallbackRegions], ?_⟩
  unfold scan
  rw [hg]
  exact ⟨_, _, rfl, rfl⟩

/-- C5 witness: with an `UnauthorizedOperation` `ClientError` from region
discovery, `get_regions` yields the fallback list and the scan completes
with `regions_scanned` equal to it. -/
theorem C5_witness :
    get_regions c5Env.describeRegions = .ok fallbackRegions
    ∧ fallbackRegions ≠ []
    ∧ ∃ res st', scan scannerInit c5Env = .ok (res, st')
        ∧ res.regions_scanned = fallbackRegions :=
  C5_clienterror_falls_back "UnauthorizedOperation" scannerInit c5Env rfl

/-- C2: For every list of resource records, the summary built from it has
`total_resources` equal to the length of the list, and the values of each of
the three frequency tables (by type, by region, by state) sum to that
total. -/
theorem C2_summary_totals (resources : List ResourceMetadata) :
    (build_summary resources).total_resources = resources.length
    ∧ valsSum (build_summary resources).by_type = (build_summary resources).total_resources
    ∧ valsSum (build_summary resources).by_region = (build_summary resources).total_resources
    ∧ valsSum (build_summary resources).by_state = (build_summary resources).total_resources := by
  obtain ⟨h1, h2, h3⟩ := valsSum_foldl_summaryStep resources ([], [], [])
  refine ⟨rfl, ?_, ?_, ?_⟩
  · rw [show (build_summary resources).by_type =
        (resources.foldl summaryStep ([], [], [])).1 from rfl, h1]
    simp [valsSum, build_summary]
  · rw [show (build_summary resources).by_region =
        (resources.foldl summaryStep ([], [], [])).2.1 from rfl, h2]
    simp [valsSum, build_summary]
  · rw [show (build_summary resources).by_state =
        (resources.foldl summaryStep ([], [], [])).2.2 from rfl, h3]
    simp [valsSum, build_summary]

/-- C7 counterexample: on a two-record list with per-record cost 0.004 in two
distinct types, the rounded total is 0.01 while the per-type rounded values
sum to 0 — a discrepancy of a full cent, far beyond floating-point
tolerance, refuting the claim that the sum of the rounded per-kind values
equals the rounded total within floating-point tolerance. -/
theorem C7_counterexample :
    (build_cost_summary [c7recA, c7recB]).estimated_monthly_total = 1/100
    ∧ valsSumQ ((build_cost_summary [c7recA, c7recB]).by_resource_type) = 0
    ∧ ((1 : ℚ)/100 ≠ 0) := by
  have hab : rawByType [c7recA, c7recB] =
      [("NAT_Gateway", 0 + 1/250), ("Elastic_IP", 0 + 1/250)] := by
    simp [rawByType, addCost, costOrZero, c7recA, c7recB,
      show ¬("NAT_Gateway" = "Elastic_IP") from by decide]
  have h004 : round2 (0 + 1/250 : ℚ) = 0 := by norm_num [round2, roundHalfEven]
  have h008 : round2 (1/125 : ℚ) = 1/100 := by norm_num [round2, roundHalfEven]
  have hsum : (([c7recA, c7recB]).map (fun r => costOrZero r.estimated_cost_monthly)).sum
      = 1/125 := by norm_num [costOrZero, c7recA, c7recB]
  refine ⟨?_, ?_, by norm_num⟩
  · rw [show (build_cost_summary [c7recA, c7recB]).estimated_monthly_total =
        round2 ((([c7recA, c7recB]).map (fun r => costOrZero r.estimated_cost_monthly)).sum)
        from rfl, hsum, h008]
  · rw [show (build_cost_summary [c7recA, c7recB]).by_resource_type =
        (rawByType [c7recA, c7recB]).map (fun p => (p.1, round2 p.2)) from rfl, hab]
    simp only [List.map_cons, List.map_nil, valsSumQ, List.sum_cons, List.sum_nil, h004]
    norm_num

/-- C7 (amended): the cost summary total is the rounded global sum of
`estimated_cost_monthly` (absent treated as zero), each per-type entry is the
rounded per-type sum, and the unrounded per-type sums add up exactly to the
unrounded total; the rounded per-type values, however, need not reproduce the
rounded total (see the counterexample). -/
theorem C7_cost_sums (rs : List ResourceMetadata) :
    (build_cost_summary rs).estimated_monthly_total = round2 (totalCost rs)
    ∧ (∀ k, lookupQ (build_cost_summary rs).by_resource_type k =
        if rs.any (fun r => r.resource_type = k) then some (round2 (typeCost k rs)) else none)
    ∧ valsSumQ (rawByType rs) = totalCost rs := by
  refine ⟨rfl, ?_, ?_⟩
  · intro k
    show lookupQ ((rawByType rs).map (fun p => (p.1, round2 p.2))) k = _
    rw [lookupQ_map_round2]
    unfold rawByType
    rw [lookupQ_foldl_addCost]
    by_cases h : rs.any (fun r => r.resource_type = k) <;>
      simp [lookupQ, h]
  · have h := valsSumQ_foldl_addCost rs []
    simpa [rawByType, valsSumQ] using h

/-- C8 counterexample: after `cleanup` the credential fields are rebound to
`None` — they no longer hold any string, zeroed or otherwise — refuting the
claim that the credential strings are cleared by overwriting rather than by
dropping the reference. -/
theorem C8_counterexample :
    (cleanup c8Session).access_key = none ∧ (cleanup c8Session).secret_key = none :=
  ⟨rfl, rfl⟩

/-- C8 (amended): after `cleanup` the client cache is empty, the session and
both credential fields are rebound to `None` (dereferenced, not overwritten
in place), and running `cleanup` again is a no-op on the resulting state. -/
theorem C8_cleanup_clears_and_idempotent (st : SessionState) :
    (cleanup st).clients = []
    ∧ (cleanup st).session_active = false
    ∧ (cleanup st).access_key = none
    ∧ (cleanup st).secret_key = none
    ∧ cleanup (cleanup st) = cleanup st :=
  ⟨rfl, rfl, rfl, rfl, rfl⟩

/-- C9: for every provider oracle, resource id and region, dispatching
`execute_action` on the mapped pair `(S3_Bucket, DELETE)` calls the
one-parameter `delete_s3_bucket` with two positional arguments; the
resulting `TypeError` is converted by the surrounding catch-all into a
failed outcome with message `Unexpected error during action execution`, and
the empty provider-call trace shows the provider is never reached. -/
theorem C9_s3_delete_is_broken_dispatch (env : ExecEnv) (rid region : Option String) :
    execute_action env (some "S3_Bucket") rid region .delete =
      ({ success := false, resource_id := rid, resource_type := some "S3_Bucket"
         action := "delete", message := "Unexpected error during action execution"
         verification_status := "failed"
         error := some "delete_s3_bucket takes 2 positional arguments but 3 were given" },
       []) := by
  rfl

theorem bulk_foldl_eq_map (env : ExecEnv) (entries : List BulkEntry)
    (acc : List BulkItemResult) :
    entries.foldl (fun acc e => acc ++ [processEntry env e]) acc
      = acc ++ entries.map (processEntry env) := by
  induction entries generalizing acc with
  | nil => simp
  | cons e tl ih => simp [List.foldl_cons, ih]

theorem filter_success_split (l : List BulkItemResult) :
    (l.filter (fun r => r.success)).length + (l.filter (fun r => !r.success)).length
      = l.length := by
  induction l with
  | nil => rfl
  | cons x xs ih =>
    by_cases h : x.success <;> simp [List.filter_cons, h] <;> omega

/-- C6 counterexample: with zero entries the endpoint returns the
`No actions provided` error response and no outcomes list at all, refuting
`for every list of n action entries, bulk invocation returns exactly n
outcomes` at n = 0. -/
theorem C6_counterexample :
    perform_bulk_action trivialExecEnv [] = .error "No actions provided" := rfl

/-- C6 (amended): for every non-empty list of n action entries, bulk
invocation returns exactly n outcomes, produced sequentially with each
outcome a function of its own entry alone — so one entry's failure
(including a malformed entry) cannot abort or alter the others — and the
response reports `successful` and `failed` counts that add up to n. -/
theorem C6_bulk_isolation (env : ExecEnv) (entries : List BulkEntry) (h : entries ≠ []) :
    ∃ resp, perform_bulk_action env entries = .ok resp
      ∧ resp.results = entries.map (processEntry env)
      ∧ resp.results.length = entries.length
      ∧ resp.total_actions = entries.length
      ∧ resp.successful + resp.failed = entries.length := by
  have hres : entries.foldl (fun acc e => acc ++ [processEntry env e]) []
      = entries.map (processEntry env) := by
    simpa using bulk_foldl_eq_map env entries []
  unfold perform_bulk_action
  rw [if_neg h]
  refine ⟨_, rfl, ?_, ?_, ?_, ?_⟩
  · exact hres
  · show (entries.foldl (fun acc e => acc ++ [processEntry env e]) []).length
        = entries.length
    rw [hres, List.length_map]
  · show (entries.foldl (fun acc e => acc ++ [processEntry env e]) []).length
        = entries.length
    rw [hres, List.length_map]
  · show ((entries.foldl (fun acc e => acc ++ [processEntry env e]) []).filter
          (fun r => r.success)).length
        + ((entries.foldl (fun acc e => acc ++ [processEntry env e]) []).filter
          (fun r => !r.success)).length
      = entries.length
    rw [hres, filter_success_split, List.length_map]

/-- C6 witness: the three-entry bulk request whose second entry lacks
`resource_id` yields three outcomes, each a function of its own entry, with
consistent counts. -/
theorem C6_witness :
    c6Entries ≠ []
    ∧ ∃ resp, perform_bulk_action trivialExecEnv c6Entries = .ok resp
        ∧ resp.results = c6Entries.map (processEntry trivialExecEnv)
        ∧ resp.results.length = c6Entries.length
        ∧ resp.total_actions = c6Entries.length
        ∧ resp.successful + resp.failed = c6Entries.length :=
  ⟨by simp [c6Entries], C6_bulk_isolation trivialExecEnv c6Entries (by simp [c6Entries])⟩

theorem mkInstanceRecord_cost (region : String) (i : RawInstance) (r : ResourceMetadata)
    (h : mkInstanceRecord region i = .ok r) : r.estimated_cost_monthly = none := by
  simp only [mkInstanceRecord] at h
  repeat' split at h
  all_goals first
    | exact Except.noConfusion h
    | (injection h with h; subst h; rfl)

theorem mkVolumeRecord_cost (region : String) (v : RawVolume) (r : ResourceMetadata)
    (h : mkVolumeRecord region v = .ok r) : r.estimated_cost_monthly = none := by
  simp only [mkVolumeRecord] at h
  repeat' split at h
  all_goals first
    | exact Except.noConfusion h
    | (injection h with h; subst h; rfl)

theorem mkElasticIpRecord_cost (region : String) (a : RawAddress) (r : ResourceMetadata)
    (h : mkElasticIpRecord region a = .ok r) : r.estimated_cost_monthly = none := by
  simp only [mkElasticIpRecord] at h
  repeat' split at h
  all_goals first
    | exact Except.noConfusion h
    | (injection h with h; subst h; rfl)

theorem mkBucketRecord_cost (env : BucketEnv) (b : RawBucket) (r : ResourceMetadata)
    (h : mkBucketRecord env b = .ok r) : r.estimated_cost_monthly = none := by
  simp only [mkBucketRecord] at h
  repeat' split at h
  all_goals first
    | exact Except.noConfusion h
    | (injection h with h; subst h; rfl)

theorem mkRdsRecord_cost (region : String) (d : RawDBInstance) (r : ResourceMetadata)
    (h : mkRdsRecord region d = .ok r) : r.estimated_cost_monthly = none := by
  simp only [mkRdsRecord] at h
  repeat' split at h
  all_goals first
    | exact Except.noConfusion h
    | (injection h with h; subst h; rfl)

theorem mkLambdaRecord_cost (region : String) (f : RawFunction) (r : ResourceMetadata)
    (h : mkLambdaRecord region f = .ok r) : r.estimated_cost_monthly = none := by
  simp only [mkLambdaRecord] at h
  repeat' split at h
  all_goals first
    | exact Except.noConfusion h
    | (injection h with h; subst h; rfl)

theorem mkLoadBalancerRecord_cost (region : String) (lb : RawLoadBalancer)
    (r : ResourceMetadata) (h : mkLoadBalancerRecord region lb = .ok r) :
    r.estimated_cost_monthly = none := by
  simp only [mkLoadBalancerRecord] at h
  repeat' split at h
  all_goals first
    | exact Except.noConfusion h
    | (injection h with h; subst h; rfl)

theorem mkLogGroupRecord_cost (region : String) (g : RawLogGroup) (r : ResourceMetadata)
    (h : mkLogGroupRecord region g = .ok r) : r.estimated_cost_monthly = none := by
  simp only [mkLogGroupRecord] at h
  repeat' split at h
  all_goals first
    | exact Except.noConfusion h
    | (injection h with h; subst h; rfl)

theorem mkNatGatewayRecord_cost (region : String) (n : RawNatGateway) (r : ResourceMetadata)
    (h : mkNatGatewayRecord region n = .ok r) : r.estimated_cost_monthly = none := by
  simp only [mkNatGatewayRecord] at h
  repeat' split at h
  all_goals first
    | exact Except.noConfusion h
    | (injection h with h; subst h; rfl)

theorem mkIamUserRecord_cost (u : RawIamUser) (r : ResourceMetadata)
    (h : mkIamUserRecord u = .ok r) : r.estimated_cost_monthly = none := by
  simp only [mkIamUserRecord] at h
  repeat' split at h
  all_goals first
    | exact Except.noConfusion h
    | (injection h with h; subst h; rfl)

theorem mkIamRoleRecord_cost (ro : RawIamRole) (r : ResourceMetadata)
    (h : mkIamRoleRecord ro = .ok r) : r.estimated_cost_monthly = none := by
  simp only [mkIamRoleRecord] at h
  repeat' split at h
  all_goals first
    | exact Except.noConfusion h
    | (injection h with h; subst h; rfl)

theorem totalCost_of_none (rs : List ResourceMetadata)
    (h : ∀ r ∈ rs, r.estimated_cost_monthly = none) : totalCost rs = 0 := by
  induction rs with
  | nil => simp [totalCost]
  | cons r tl ih =>
    have h1 : r.estimated_cost_monthly = none := h r (by simp)
    have h2 := ih (fun x hx => h x (by simp [hx]))
    show (List.map (fun r => costOrZero r.estimated_cost_monthly) (r :: tl)).sum = 0
    rw [List.map_cons, List.sum_cons, h1, show costOrZero none = 0 from rfl, zero_add]
    exact h2

theorem addCost_zero (k : String) :
    ∀ (m : List (String × ℚ)), (∀ p ∈ m, p.2 = 0) → ∀ p ∈ addCost m k 0, p.2 = 0
  | [], _, p, hp => by
    simp [addCost] at hp
    simp [hp]
  | (k₁, v₁) :: tl, hm, p, hp => by
    have hv₁ : v₁ = 0 := hm (k₁, v₁) (by simp)
    by_cases h : k₁ = k
    · simp only [addCost, if_pos h] at hp
      rcases List.mem_cons.mp hp with hp | hp
      · simp [hp, hv₁]
      · exact hm p (List.mem_cons_of_mem _ hp)
    · simp only [addCost, if_neg h] at hp
      rcases List.mem_cons.mp hp with hp | hp
      · simp [hp, hv₁]
      · exact addCost_zero k tl (fun q hq => hm q (List.mem_cons_of_mem _ hq)) p hp

theorem rawByType_zero :
    ∀ (rs : List ResourceMetadata) (m : List (String × ℚ)),
      (∀ r ∈ rs, r.estimated_cost_monthly = none) → (∀ p ∈ m, p.2 = 0) →
      ∀ p ∈ rs.foldl
          (fun m r => addCost m r.resource_type (costOrZero r.estimated_cost_monthly)) m,
        p.2 = 0
  | [], _, _, hm, p, hp => hm p hp
  | r :: tl, m, hr, hm, p, hp => by
    have h0 : costOrZero r.estimated_cost_monthly = 0 := by
      rw [hr r (by simp)]
      rfl
    have hz : ∀ p ∈ addCost m r.resource_type (costOrZero r.estimated_cost_monthly),
        p.2 = 0 := by
      rw [h0]
      exact addCost_zero r.resource_type m hm
    simp only [List.foldl_cons] at hp
    exact rawByType_zero tl _ (fun x hx => hr x (List.mem_cons_of_mem _ hx)) hz p hp

/-- C10: no scanner ever assigns a cost estimate — every record any of the
eleven scanner record builders produces has `estimated_cost_monthly = None`
— and consequently, for any resource list all of whose records carry no
cost, the cost summary total is 0.0 and every per-type entry is 0.0. -/
theorem C10_no_cost_assigned :
    (∀ region i r, mkInstanceRecord region i = .ok r → r.estimated_cost_monthly = none)
    ∧ (∀ region v r, mkVolumeRecord region v = .ok r → r.estimated_cost_monthly = none)
    ∧ (∀ region a r, mkElasticIpRecord region a = .ok r → r.estimated_cost_monthly = none)
    ∧ (∀ env b r, mkBucketRecord env b = .ok r → r.estimated_cost_monthly = none)
    ∧ (∀ region d r, mkRdsRecord region d = .ok r → r.estimated_cost_monthly = none)
    ∧ (∀ region f r, mkLambdaRecord region f = .ok r → r.estimated_cost_monthly = none)
    ∧ (∀ region lb r, mkLoadBalancerRecord region lb = .ok r →
        r.estimated_cost_monthly = none)
    ∧ (∀ region g r, mkLogGroupRecord region g = .ok r → r.estimated_cost_monthly = none)
    ∧ (∀ region n r, mkNatGatewayRecord region n = .ok r → r.estimated_cost_monthly = none)
    ∧ (∀ u r, mkIamUserRecord u = .ok r → r.estimated_cost_monthly = none)
    ∧ (∀ ro r, mkIamRoleRecord ro = .ok r → r.estimated_cost_monthly = none)
    ∧ (∀ rs, (∀ r ∈ rs, r.estimated_cost_monthly = none) →
        (build_cost_summary rs).estimated_monthly_total = 0
        ∧ ∀ p ∈ (build_cost_summary rs).by_resource_type, p.2 = 0) := by
  refine ⟨mkInstanceRecord_cost, mkVolumeRecord_cost, mkElasticIpRecord_cost,
    mkBucketRecord_cost, mkRdsRecord_cost, mkLambdaRecord_cost, mkLoadBalancerRecord_cost,
    mkLogGroupRecord_cost, mkNatGatewayRecord_cost, mkIamUserRecord_cost,
    mkIamRoleRecord_cost, ?_⟩
  intro rs h
  constructor
  · show round2 ((rs.map fun r => costOrZero r.estimated_cost_monthly).sum) = 0
    rw [show (rs.map fun r => costOrZero r.estimated_cost_monthly).sum = totalCost rs
      from rfl]
    rw [totalCost_of_none rs h]
    norm_num [round2, roundHalfEven]
  · intro p hp
    rw [show (build_cost_summary rs).by_resource_type
        = (rawByType rs).map (fun p => (p.1, round2 p.2)) from rfl] at hp
    obtain ⟨q, hq, hpq⟩ := List.mem_map.mp hp
    have hq0 : q.2 = 0 := rawByType_zero rs [] h (by simp) q hq
    rw [← hpq]
    show round2 q.2 = 0
    rw [hq0]
    norm_num [round2, roundHalfEven]

/-- C10 witness: the record the EC2 scanner builds from a concrete instance
listing has no cost, and the cost summary over it totals zero. -/
theorem C10_witness :
    c10Rec.estimated_cost_monthly = none
    ∧ (build_cost_summary [c10Rec]).estimated_monthly_total = 0 := by
  obtain ⟨h1, -, -, -, -, -, -, -, -, -, -, hfin⟩ := C10_no_cost_assigned
  refine ⟨h1 "us-east-1" c10Inst c10Rec rfl, (hfin [c10Rec] ?_).1⟩
  intro r hr
  simp only [List.mem_singleton] at hr
  subst hr
  rfl

end ConsoleSensei
